import Mathlib

/-
  Shallow embedding of the appplat-vpc-benchmark measurement engine
  (src/src/index.js, src/unnamed/part_000, src/unnamed/part_001).

  JS numbers are modelled as rationals (ℚ); nanosecond timestamps from
  process.hrtime.bigint() are modelled as natural numbers; JS objects with
  optional fields are modelled as structures with Option fields; the
  try/catch control flow of the prober is modelled by explicit matching on
  the outcome of each awaited step, supplied by an environment value.
-/

namespace VpcBenchmark

/-- Outcome of one awaited database step: success with the elapsed
nanoseconds until the next hrtime checkpoint, or a thrown error with its
message. -/
inductive StepR where
  | ok (ns : ℕ)
  | err (msg : String)
deriving DecidableEq

/-- Whether a step succeeded. -/
def StepR.isOk : StepR → Bool
  | .ok _ => true
  | .err _ => false

/-- JS Array.prototype.sort with the numeric comparator (a, b) => a - b
sorts the array ascending; over ℚ the result is the unique sorted
permutation, which List.insertionSort computes. -/
def sortAscending (arr : List ℚ) : List ℚ :=
  arr.insertionSort (· ≤ ·)

/-- Embedding of function percentile(arr, p) (src/src/index.js lines 15-20,
identical in part_000 and part_001): empty input returns 0; otherwise sort
ascending, take index ceil((p/100)*length) - 1 clamped to at least 0, and
index the sorted array.  JS indexing past the end yields undefined, which is
modelled by Option (none). -/
def percentile (arr : List ℚ) (p : ℚ) : Option ℚ :=
  if arr.length = 0 then some 0
  else
    let sorted := sortAscending arr
    let index : ℤ := ⌈(p / 100) * (arr.length : ℚ)⌉ - 1
    sorted[(max 0 index).toNat]?

/-- Number.prototype.toFixed(2) on the nonnegative rationals produced by the
stats code: round to 2 decimal places, ties away from zero (for nonnegative
values, ties up). -/
def round2 (q : ℚ) : ℚ :=
  ((⌊q * 100 + 1 / 2⌋ : ℤ) : ℚ) / 100

/-- Math.min over a nonempty spread array; 0 is a placeholder for the empty
case, which no call site reaches (every caller guards for nonempty input). -/
def listMin : List ℚ → ℚ
  | [] => 0
  | a :: as => as.foldl min a

/-- Math.max over a nonempty spread array; same placeholder convention as
listMin. -/
def listMax : List ℚ → ℚ
  | [] => 0
  | a :: as => as.foldl max a

/-- In-memory measurement record (the JS object literals built in
measureLatency / measureLatencyWithClient / measureLatencyWithPool).
Optional JS fields are Option; absent fields are none. -/
structure Measurement where
  timestamp : String
  mode : Option String := none
  connectLatencyMs : Option ℚ := none
  poolAcquireMs : Option ℚ := none
  pingLatencyMs : Option ℚ := none
  longQueryLatencyMs : Option ℚ := none
  longQueryRows : Option ℕ := none
  multiRoundTripLatencyMs : Option ℚ := none
  avgRoundTripMs : Option ℚ := none
  queryLatencyMs : Option ℚ := none
  totalLatencyMs : Option ℚ := none
  poolStats : Option (ℕ × ℕ × ℕ) := none
  error : Option String := none
  success : Bool
deriving DecidableEq

/-- Per-phase block produced by calcStats (src/src/index.js lines 47-54):
min/max/avg/p50/p95/p99, each passed through toFixed(2).  The percentile
calls are defined at every call site (nonempty input, p in {50,95,99}), so
the Option is discharged with getD 0. -/
structure PhaseStats where
  min : ℚ
  max : ℚ
  avg : ℚ
  p50 : ℚ
  p95 : ℚ
  p99 : ℚ
deriving DecidableEq

/-- Embedding of the calcStats closure. -/
def calcStats (arr : List ℚ) : PhaseStats :=
  { min := round2 (listMin arr)
    max := round2 (listMax arr)
    avg := round2 (arr.sum / (arr.length : ℚ))
    p50 := round2 ((percentile arr 50).getD 0)
    p95 := round2 ((percentile arr 95).getD 0)
    p99 := round2 ((percentile arr 99).getD 0) }

/-- Latency section of the stats summary (src/src/index.js lines 62-69). -/
structure LatencyBlock where
  connect : PhaseStats
  ping : Option PhaseStats
  longQuery : Option PhaseStats
  avgRoundTrip : Option PhaseStats
  query : PhaseStats
  total : PhaseStats
deriving DecidableEq

/-- Stats summary returned by calculateStats (src/src/index.js lines 23-73).
The failureRate field holds the numeric percentage that JS renders as
toFixed(2) + a percent sign; appType, uptime and startTime are presentation
strings outside the measurement engine and are not modelled. -/
structure StatsSummary where
  totalMeasurements : ℕ
  successfulMeasurements : ℕ
  failedMeasurements : ℕ
  failureRate : ℚ
  latency : Option LatencyBlock
deriving DecidableEq

/-- Embedding of calculateStats over the results buffer.  In the source the
latency arrays are built by mapping a field over the successful results
(with a filter dropping undefined for the optional fields); filterMap is the
typed rendering of that mapping. -/
def calculateStats (results : List Measurement) : StatsSummary :=
  let successful := results.filter (fun r => r.success)
  let failed := results.filter (fun r => !r.success)
  if successful.length = 0 then
    { totalMeasurements := results.length
      successfulMeasurements := 0
      failedMeasurements := failed.length
      failureRate :=
        if 0 < results.length then
          round2 ((failed.length : ℚ) / (results.length : ℚ) * 100)
        else 0
      latency := none }
  else
    let connectLatencies := successful.filterMap (fun r => r.connectLatencyMs)
    let pingLatencies := successful.filterMap (fun r => r.pingLatencyMs)
    let longQueryLatencies := successful.filterMap (fun r => r.longQueryLatencyMs)
    let avgRoundTrips := successful.filterMap (fun r => r.avgRoundTripMs)
    let queryLatencies := successful.filterMap (fun r => r.queryLatencyMs)
    let totalLatencies := successful.filterMap (fun r => r.totalLatencyMs)
    { totalMeasurements := results.length
      successfulMeasurements := successful.length
      failedMeasurements := failed.length
      failureRate := round2 ((failed.length : ℚ) / (results.length : ℚ) * 100)
      latency := some
        { connect := calcStats connectLatencies
          ping := if 0 < pingLatencies.length then some (calcStats pingLatencies) else none
          longQuery := if 0 < longQueryLatencies.length then some (calcStats longQueryLatencies) else none
          avgRoundTrip := if 0 < avgRoundTrips.length then some (calcStats avgRoundTrips) else none
          query := calcStats queryLatencies
          total := calcStats totalLatencies } }

/-- Response body of GET /metrics (src/src/index.js lines 178-185): the
stats summary spread together with the most recent measurement, null when
the buffer is empty. -/
structure MetricsResponse where
  stats : StatsSummary
  lastMeasurement : Option Measurement

/-- Embedding of the /metrics handler. -/
def metricsResponse (results : List Measurement) : MetricsResponse :=
  { stats := calculateStats results
    lastMeasurement := results.getLast? }

/-- Calls the prober makes on the pg driver during one cycle, recorded in
order so the embedding can state which cleanup calls are and are not
attempted on each control path. -/
inductive Action where
  | connect
  | acquire
  | ping
  | bulk
  | rt (i : ℕ)
  | endConn
  | release
deriving DecidableEq

/-- Environment of one Client-mode cycle (part_001 measureLatencyWithClient,
lines 110-170; src/src/index.js measureLatency, lines 85-155, is the same
code without the mode field): the outcome the database hands back for each
awaited step, and the wall-clock string new Date().toISOString() would
produce. endConn is the outcome of await client.end(): none on success,
some msg when it throws (its duration is not timed by the code). -/
structure ClientEnv where
  wallClock : String
  connect : StepR
  ping : StepR
  bulk : StepR
  bulkRows : ℕ
  rts : Fin 10 → StepR
  endConn : Option String

/-- Environment of one Pool-mode cycle (part_001 measureLatencyWithPool,
lines 173-238).  release is the outcome of client.release(): none on
success, some msg when it throws.  poolCounts are the
totalCount/idleCount/waitingCount the pool reports. -/
structure PoolEnv where
  wallClock : String
  acquire : StepR
  ping : StepR
  bulk : StepR
  bulkRows : ℕ
  rts : Fin 10 → StepR
  release : Option String
  poolCounts : ℕ × ℕ × ℕ

/-- The ten outcomes of the round-trip loop for (let i = 0; i < 10; i++), in
loop order. -/
def rtList (rts : Fin 10 → StepR) : List StepR :=
  (List.finRange 10).map rts

/-- Runs the round-trip loop body over the remaining step outcomes: i is
the loop counter, t the current hrtime checkpoint in ns.  Returns the
checkpoint after the last successful query, or the message of the first
query that throws, together with the driver calls made. -/
def runRTs : List StepR → ℕ → ℕ → Except String ℕ × List Action
  | [], _, t => (Except.ok t, [])
  | s :: rest, i, t =>
    match s with
    | .ok d =>
      let r := runRTs rest (i + 1) (t + d)
      (r.1, Action.rt i :: r.2)
    | .err m => (Except.error m, [Action.rt i])

/-- Nanosecond checkpoint difference converted to milliseconds, the
Number(t2 - t1) / 1e6 idiom of the source. -/
def nsToMs (t s : ℕ) : ℚ :=
  ((t : ℚ) - (s : ℚ)) / 1000000

/-- The failure object built in the catch block of part_001
measureLatencyWithClient / measureLatencyWithPool: timestamp, mode, error
message, success false, no latency fields. -/
def failureMeasurement (wallClock mode msg : String) : Measurement :=
  { timestamp := wallClock
    mode := some mode
    error := some msg
    success := false }

/-- Embedding of measureLatencyWithClient (part_001 lines 110-170).  The
try block awaits connect, ping, the bulk query, ten parameterized queries
and client.end() in order; the first step that throws transfers control to
the catch block, which returns the failure object.  On full success the
measurement object is assembled from the hrtime checkpoints.  The second
component is the ordered list of driver calls made. -/
def measureLatencyWithClient (env : ClientEnv) : Measurement × List Action :=
  match env.connect with
  | .err m => (failureMeasurement env.wallClock "client" m, [Action.connect])
  | .ok d1 =>
    let t1 := d1
    match env.ping with
    | .err m => (failureMeasurement env.wallClock "client" m, [Action.connect, Action.ping])
    | .ok d2 =>
      let t2 := t1 + d2
      match env.bulk with
      | .err m =>
        (failureMeasurement env.wallClock "client" m, [Action.connect, Action.ping, Action.bulk])
      | .ok d3 =>
        let t3 := t2 + d3
        let rtRun := runRTs (rtList env.rts) 0 t3
        match rtRun.1 with
        | .error m =>
          (failureMeasurement env.wallClock "client" m,
            [Action.connect, Action.ping, Action.bulk] ++ rtRun.2)
        | .ok t4 =>
          match env.endConn with
          | some m =>
            (failureMeasurement env.wallClock "client" m,
              [Action.connect, Action.ping, Action.bulk] ++ rtRun.2 ++ [Action.endConn])
          | none =>
            ({ timestamp := env.wallClock
               mode := some "client"
               connectLatencyMs := some (nsToMs t1 0)
               pingLatencyMs := some (nsToMs t2 t1)
               longQueryLatencyMs := some (nsToMs t3 t2)
               longQueryRows := some env.bulkRows
               multiRoundTripLatencyMs := some (nsToMs t4 t3)
               avgRoundTripMs := some (nsToMs t4 t3 / 10)
               queryLatencyMs := some (nsToMs t4 t1)
               totalLatencyMs := some (nsToMs t4 0)
               success := true },
              [Action.connect, Action.ping, Action.bulk] ++ rtRun.2 ++ [Action.endConn])

/-- Embedding of measureLatencyWithPool (part_001 lines 173-238).  Same
step sequence with pool.connect checkout in place of a fresh connection and
client.release() in place of client.end(); release is called before the
measurement object is assembled, so a throwing release also lands in the
catch block. -/
def measureLatencyWithPool (env : PoolEnv) : Measurement × List Action :=
  match env.acquire with
  | .err m => (failureMeasurement env.wallClock "pool" m, [Action.acquire])
  | .ok d1 =>
    let t1 := d1
    match env.ping with
    | .err m => (failureMeasurement env.wallClock "pool" m, [Action.acquire, Action.ping])
    | .ok d2 =>
      let t2 := t1 + d2
      match env.bulk with
      | .err m =>
        (failureMeasurement env.wallClock "pool" m, [Action.acquire, Action.ping, Action.bulk])
      | .ok d3 =>
        let t3 := t2 + d3
        let rtRun := runRTs (rtList env.rts) 0 t3
        match rtRun.1 with
        | .error m =>
          (failureMeasurement env.wallClock "pool" m,
            [Action.acquire, Action.ping, Action.bulk] ++ rtRun.2)
        | .ok t4 =>
          match env.release with
          | some m =>
            (failureMeasurement env.wallClock "pool" m,
              [Action.acquire, Action.ping, Action.bulk] ++ rtRun.2 ++ [Action.release])
          | none =>
            ({ timestamp := env.wallClock
               mode := some "pool"
               poolAcquireMs := some (nsToMs t1 0)
               pingLatencyMs := some (nsToMs t2 t1)
               longQueryLatencyMs := some (nsToMs t3 t2)
               longQueryRows := some env.bulkRows
               multiRoundTripLatencyMs := some (nsToMs t4 t3)
               avgRoundTripMs := some (nsToMs t4 t3 / 10)
               queryLatencyMs := some (nsToMs t4 t1)
               totalLatencyMs := some (nsToMs t4 0)
               poolStats := some env.poolCounts
               success := true },
              [Action.acquire, Action.ping, Action.bulk] ++ rtRun.2 ++ [Action.release])

/-- Environment of one cycle in either acquisition strategy; USE_POOL is
fixed at startup, so a cycle is one or the other. -/
inductive ProbeEnv where
  | client (ce : ClientEnv)
  | pool (pe : PoolEnv)

/-- Embedding of measureLatency (part_001 lines 241-247): dispatch on the
acquisition strategy. -/
def measureLatency : ProbeEnv → Measurement × List Action
  | .client ce => measureLatencyWithClient ce
  | .pool pe => measureLatencyWithPool pe

/-- Wall-clock string of the environment, used to state what the returned
timestamp must be. -/
def ProbeEnv.wallClock : ProbeEnv → String
  | .client ce => ce.wallClock
  | .pool pe => pe.wallClock

/-- Round-trip outcomes of the environment. -/
def ProbeEnv.rts : ProbeEnv → (Fin 10 → StepR)
  | .client ce => ce.rts
  | .pool pe => pe.rts

/-- Buffer-append step of runBenchmark (src/src/index.js lines 158-166,
part_001 lines 250-258): push the measurement, then drop the oldest entry
when the length exceeds 400. -/
def runBenchmarkPush (results : List Measurement) (m : Measurement) : List Measurement :=
  let r := results ++ [m]
  if 400 < r.length then r.tail else r

/-- Buffer contents after a whole sequence of cycles appended by
runBenchmark into the initially empty results array. -/
def runBenchmarkFold (ms : List Measurement) : List Measurement :=
  ms.foldl runBenchmarkPush []

/-- Nanoseconds a step took; 0 for a failed step (a failed step contributes
no checkpoint). -/
def StepR.ns : StepR → ℕ
  | .ok d => d
  | .err _ => 0

/-- Total nanoseconds of a list of successful steps. -/
def stepsTotalNs (steps : List StepR) : ℕ :=
  (steps.map StepR.ns).sum

/-- Failure measurement used as a concrete buffer element in witnesses. -/
def mFail : Measurement :=
  { timestamp := "t", success := false }

/-- Successful measurement with no optional fields, used as a concrete
element in witnesses about the stats aggregator. -/
def mOK : Measurement :=
  { timestamp := "t", success := true }

/-- Client-mode cycle in which the connection is acquired and the ping
query then throws. -/
def cePingFail : ClientEnv :=
  { wallClock := "t"
    connect := .ok 5
    ping := .err "query failed"
    bulk := .ok 0
    bulkRows := 1000
    rts := fun _ => .ok 0
    endConn := none }

/-- Client-mode cycle in which every step succeeds. -/
def ceOK : ClientEnv :=
  { wallClock := "t"
    connect := .ok 1
    ping := .ok 1
    bulk := .ok 1
    bulkRows := 1000
    rts := fun _ => .ok 1
    endConn := none }

/-- Pool-mode cycle in which every step succeeds. -/
def peOK : PoolEnv :=
  { wallClock := "t"
    acquire := .ok 1
    ping := .ok 1
    bulk := .ok 1
    bulkRows := 1000
    rts := fun _ => .ok 1
    release := none
    poolCounts := (10, 9, 0) }

/-- Client-mode cycle whose connect step throws. -/
def ceConnFail : ClientEnv :=
  { wallClock := "t"
    connect := .err "connect refused"
    ping := .ok 0
    bulk := .ok 0
    bulkRows := 1000
    rts := fun _ => .ok 0
    endConn := none }

/-- Pool-mode cycle whose checkout step throws. -/
def peAcqFail : PoolEnv :=
  { wallClock := "t"
    acquire := .err "pool timeout"
    ping := .ok 0
    bulk := .ok 0
    bulkRows := 1000
    rts := fun _ => .ok 0
    release := none
    poolCounts := (10, 0, 1) }

/-- All-success client cycle whose first round trip takes 3 ns and the
other nine 1 ns each. -/
def ceRtsA : ClientEnv :=
  { wallClock := "t"
    connect := .ok 1
    ping := .ok 1
    bulk := .ok 1
    bulkRows := 1000
    rts := fun i => if i.val = 0 then .ok 3 else .ok 1
    endConn := none }

/-- All-success client cycle whose second round trip takes 3 ns and the
other nine 1 ns each: a different duration sequence with the same total as
ceRtsA. -/
def ceRtsB : ClientEnv :=
  { wallClock := "t"
    connect := .ok 1
    ping := .ok 1
    bulk := .ok 1
    bulkRows := 1000
    rts := fun i => if i.val = 1 then .ok 3 else .ok 1
    endConn := none }

/-! ### Helper lemmas about percentile -/

theorem sortAscending_sorted (arr : List ℚ) : (sortAscending arr).Sorted (· ≤ ·) :=
  List.sorted_insertionSort _ _

theorem sortAscending_perm (arr : List ℚ) : (sortAscending arr).Perm arr :=
  List.perm_insertionSort _ _

theorem percentile_index_lt (arr : List ℚ) (p : ℚ) (hne : arr ≠ []) (hp : p ≤ 100) :
    (max 0 (⌈(p / 100) * (arr.length : ℚ)⌉ - 1)).toNat < arr.length := by
  have hn : 1 ≤ arr.length := List.length_pos.mpr hne
  have hceil : ⌈(p / 100) * (arr.length : ℚ)⌉ ≤ (arr.length : ℤ) := by
    rw [Int.ceil_le]
    have h1 : p / 100 ≤ 1 := by
      linarith [div_le_one (show (0:ℚ) < 100 by norm_num) |>.mpr hp]
    have h2 : (0:ℚ) ≤ (arr.length : ℚ) := Nat.cast_nonneg _
    push_cast
    nlinarith
  omega

theorem percentile_eq_sorted_get (arr s : List ℚ) (p : ℚ) (hne : arr ≠ [])
    (hperm : arr.Perm s) (hsort : s.Sorted (· ≤ ·)) :
    percentile arr p = s[(max 0 (⌈(p / 100) * (arr.length : ℚ)⌉ - 1)).toNat]? := by
  have hs : sortAscending arr = s :=
    List.eq_of_perm_of_sorted ((sortAscending_perm arr).trans hperm)
      (sortAscending_sorted arr) hsort
  have hlen : arr.length ≠ 0 := fun h => hne (List.length_eq_zero.mp h)
  simp only [percentile, if_neg hlen, hs]

theorem percentile_ten_list_sorted :
    ([1,2,3,4,5,6,7,8,9,10] : List ℚ).Sorted (· ≤ ·) := by
  norm_num [List.sorted_cons]

theorem percentile_ten_p50 : percentile [1,2,3,4,5,6,7,8,9,10] 50 = some 5 := by
  rw [percentile_eq_sorted_get [1,2,3,4,5,6,7,8,9,10] [1,2,3,4,5,6,7,8,9,10] 50
    (by simp) (List.Perm.refl _) percentile_ten_list_sorted]
  norm_num
  rfl

theorem percentile_ten_p95 : percentile [1,2,3,4,5,6,7,8,9,10] 95 = some 10 := by
  rw [percentile_eq_sorted_get [1,2,3,4,5,6,7,8,9,10] [1,2,3,4,5,6,7,8,9,10] 95
    (by simp) (List.Perm.refl _) percentile_ten_list_sorted]
  norm_num
  rw [show ⌈(19:ℚ)/2⌉ = (10:ℤ) from Int.ceil_eq_iff.mpr (by norm_num)]
  rfl

theorem percentile_ten_p99 : percentile [1,2,3,4,5,6,7,8,9,10] 99 = some 10 := by
  rw [percentile_eq_sorted_get [1,2,3,4,5,6,7,8,9,10] [1,2,3,4,5,6,7,8,9,10] 99
    (by simp) (List.Perm.refl _) percentile_ten_list_sorted]
  norm_num
  rw [show ⌈(99:ℚ)/10⌉ = (10:ℤ) from Int.ceil_eq_iff.mpr (by norm_num)]
  rfl

/-! ### C1 -/

/-- C1 counterexample: the claim asserts p95 of [1,2,3,4,5,6,7,8,9,10] is 9,
but nearest rank gives index ceil(0.95 times 10) - 1 = ceil(9.5) - 1 = 9, so
the code returns the tenth sorted value, 10, not 9. -/
theorem C1_counterexample :
    percentile [1,2,3,4,5,6,7,8,9,10] 95 = some 10 ∧
    percentile [1,2,3,4,5,6,7,8,9,10] 95 ≠ some 9 := by
  refine ⟨percentile_ten_p95, ?_⟩
  rw [percentile_ten_p95]
  intro h
  have : (10:ℚ) = 9 := Option.some.inj h
  norm_num at this

/-- C1 (amended): for every nonempty list and percentile p with
0 ≤ p ≤ 100, the aggregator computes the nearest-rank percentile: the entry
of the ascending sorted permutation at index ceil(p/100 times count) - 1
clamped to at least 0, with no interpolation; for [1,...,10] this gives
p50 = 5, p95 = 10 and p99 = 10. -/
theorem C1_percentile_nearest_rank :
    (∀ (arr s : List ℚ) (p : ℚ), arr ≠ [] → 0 ≤ p → p ≤ 100 → arr.Perm s →
      s.Sorted (· ≤ ·) →
      percentile arr p = s[(max 0 (⌈(p / 100) * (arr.length : ℚ)⌉ - 1)).toNat]?) ∧
    percentile [1,2,3,4,5,6,7,8,9,10] 50 = some 5 ∧
    percentile [1,2,3,4,5,6,7,8,9,10] 95 = some 10 ∧
    percentile [1,2,3,4,5,6,7,8,9,10] 99 = some 10 :=
  ⟨fun arr s p hne _ _ hperm hsort => percentile_eq_sorted_get arr s p hne hperm hsort,
   percentile_ten_p50, percentile_ten_p95, percentile_ten_p99⟩

/-- C1 witness: the general nearest-rank characterization applied to the
concrete list [3,1,2] with p = 50. -/
theorem C1_witness :
    percentile [1,2,3] 50 =
      ([1,2,3] : List ℚ)[(max 0 (⌈((50:ℚ) / 100) * ((([1,2,3] : List ℚ).length : ℚ))⌉ - 1)).toNat]? :=
  C1_percentile_nearest_rank.1 [1,2,3] [1,2,3] 50 (by simp) (by norm_num) (by norm_num)
    (List.Perm.refl _) (by norm_num [List.sorted_cons])

/-! ### C10 -/

/-- C10: the percentile function is total: for 0 ≤ p ≤ 100 it returns 0 on
the empty list, and on a nonempty list the clamped nearest-rank index is in
bounds, so the result is an element of the input list. -/
theorem C10_percentile_in_bounds (arr : List ℚ) (p : ℚ) (h0 : 0 ≤ p) (h100 : p ≤ 100) :
    (arr = [] → percentile arr p = some 0) ∧
    (arr ≠ [] → ∃ v, percentile arr p = some v ∧ v ∈ arr) := by
  clear h0
  constructor
  · intro h; subst h; rfl
  · intro hne
    have hlt := percentile_index_lt arr p hne h100
    have hlen : (sortAscending arr).length = arr.length := (sortAscending_perm arr).length_eq
    have hlt' : (max 0 (⌈(p / 100) * (arr.length : ℚ)⌉ - 1)).toNat < (sortAscending arr).length := by
      omega
    refine ⟨(sortAscending arr).get ⟨_, hlt'⟩, ?_, ?_⟩
    · have hlen0 : arr.length ≠ 0 := fun h => hne (List.length_eq_zero.mp h)
      simp only [percentile, if_neg hlen0]
      exact List.getElem?_eq_getElem hlt'
    · exact (sortAscending_perm arr).subset (List.get_mem _ _ _)

/-- C10 witness: totality instantiated at arr = [2,1] and p = 95. -/
theorem C10_witness :
    ((0:ℚ) ≤ 95 ∧ (95:ℚ) ≤ 100) ∧
    (([2,1] : List ℚ) ≠ [] → ∃ v, percentile [2,1] 95 = some v ∧ v ∈ ([2,1] : List ℚ)) :=
  ⟨⟨by norm_num, by norm_num⟩,
   (C10_percentile_in_bounds [2,1] 95 (by norm_num) (by norm_num)).2⟩

/-! ### Helper lemmas about the buffer -/

theorem runBenchmarkFold_append (ms : List Measurement) (m : Measurement) :
    runBenchmarkFold (ms ++ [m]) = runBenchmarkPush (runBenchmarkFold ms) m := by
  simp [runBenchmarkFold, List.foldl_append]

theorem runBenchmarkFold_eq_drop (ms : List Measurement) :
    runBenchmarkFold ms = ms.drop (ms.length - 400) := by
  induction ms using List.reverseRecOn with
  | nil => rfl
  | append_singleton ms m ih =>
    rw [runBenchmarkFold_append, ih, runBenchmarkPush]
    by_cases hlen : ms.length ≤ 399
    · have h1 : ms.length - 400 = 0 := by omega
      have h2 : (ms ++ [m]).length - 400 = 0 := by simp; omega
      simp only [h1, h2, List.drop_zero]
      rw [if_neg (by simp; omega)]
    · have h400 : 400 ≤ ms.length := by omega
      have hdlen : (ms.drop (ms.length - 400)).length = 400 := by
        rw [List.length_drop]; omega
      rw [if_pos (by simp [hdlen])]
      rw [← List.drop_append_of_le_length (by omega)]
      rw [List.tail_drop]
      rw [show (ms ++ [m]).length - 400 = ms.length - 400 + 1 by simp; omega]

/-! ### C2 -/

/-- C2: the runBenchmark buffer never exceeds 400 entries, and after more
than 400 appends it holds exactly the most recent 400 measurements in
insertion order, the oldest having been evicted first. -/
theorem C2_buffer_fifo_eviction (ms : List Measurement) :
    (runBenchmarkFold ms).length ≤ 400 ∧
    (400 < ms.length → runBenchmarkFold ms = ms.drop (ms.length - 400)) := by
  rw [runBenchmarkFold_eq_drop]
  constructor
  · rw [List.length_drop]; omega
  · intro _; rfl

/-- C2 witness: 401 appends leave exactly the most recent 400 entries. -/
theorem C2_witness :
    400 < (List.replicate 401 mFail).length ∧
    runBenchmarkFold (List.replicate 401 mFail) =
      (List.replicate 401 mFail).drop ((List.replicate 401 mFail).length - 400) :=
  ⟨by rw [List.length_replicate]; omega,
   (C2_buffer_fifo_eviction (List.replicate 401 mFail)).2 (by rw [List.length_replicate]; omega)⟩

/-! ### Helper lemmas about the round-trip loop -/

theorem runRTs_actions_rt (steps : List StepR) (i t : ℕ) (a : Action)
    (ha : a ∈ (runRTs steps i t).2) : ∃ j, a = Action.rt j := by
  induction steps generalizing i t with
  | nil => simp [runRTs] at ha
  | cons s rest ih =>
    cases s with
    | ok d =>
      simp only [runRTs, List.mem_cons] at ha
      rcases ha with h | h
      · exact ⟨i, h⟩
      · exact ih (i + 1) (t + d) h
    | err m =>
      simp only [runRTs, List.mem_singleton] at ha
      exact ⟨i, ha⟩

theorem runRTs_ok_iff (steps : List StepR) (i t : ℕ) :
    (∃ t4, (runRTs steps i t).1 = Except.ok t4) ↔ ∀ s ∈ steps, s.isOk = true := by
  induction steps generalizing i t with
  | nil => simp [runRTs]
  | cons s rest ih =>
    cases s with
    | ok d => simpa [runRTs, StepR.isOk] using ih (i + 1) (t + d)
    | err m => simp [runRTs, StepR.isOk]

theorem runRTs_ok_sum (steps : List StepR) (i t t4 : ℕ)
    (h : (runRTs steps i t).1 = Except.ok t4) : t4 = t + stepsTotalNs steps := by
  induction steps generalizing i t with
  | nil =>
    simp only [runRTs, Except.ok.injEq] at h
    simp [stepsTotalNs, ← h]
  | cons s rest ih =>
    cases s with
    | ok d =>
      simp only [runRTs] at h
      have := ih (i + 1) (t + d) h
      simp only [stepsTotalNs, List.map_cons, List.sum_cons, StepR.ns] at *
      omega
    | err m => simp [runRTs] at h

theorem rtList_ok_iff (rts : Fin 10 → StepR) :
    (∀ s ∈ rtList rts, s.isOk = true) ↔ ∀ i, (rts i).isOk = true := by
  simp [rtList]

/-! ### C3 -/

/-- C3: every cycle in either mode returns exactly one Measurement (the
prober is a total function into Measurement): on full success it is a
Sample with no error field, and on any step failure it is a Failure
carrying the cycle timestamp and the error message, so no database error
escapes as an exception. -/
theorem C3_prober_never_raises (env : ProbeEnv) :
    (measureLatency env).1.timestamp = env.wallClock ∧
    (((measureLatency env).1.success = true ∧ (measureLatency env).1.error = none) ∨
     ((measureLatency env).1.success = false ∧ ((measureLatency env).1.error).isSome = true)) := by
  cases env with
  | client ce =>
    rcases ce with ⟨w, cn, pg, bk, rows, rts, ec⟩
    rcases cn with d1 | m
    · rcases pg with d2 | m
      · rcases bk with d3 | m
        · rcases hr : (runRTs (rtList rts) 0 (d1 + d2 + d3)).1 with m | t4
          · simp [measureLatency, ProbeEnv.wallClock, measureLatencyWithClient, hr,
              failureMeasurement]
          · rcases ec with _ | m <;>
              simp [measureLatency, ProbeEnv.wallClock, measureLatencyWithClient, hr,
                failureMeasurement]
        · simp [measureLatency, ProbeEnv.wallClock, measureLatencyWithClient, failureMeasurement]
      · simp [measureLatency, ProbeEnv.wallClock, measureLatencyWithClient, failureMeasurement]
    · simp [measureLatency, ProbeEnv.wallClock, measureLatencyWithClient, failureMeasurement]
  | pool pe =>
    rcases pe with ⟨w, ac, pg, bk, rows, rts, rel, pc⟩
    rcases ac with d1 | m
    · rcases pg with d2 | m
      · rcases bk with d3 | m
        · rcases hr : (runRTs (rtList rts) 0 (d1 + d2 + d3)).1 with m | t4
          · simp [measureLatency, ProbeEnv.wallClock, measureLatencyWithPool, hr,
              failureMeasurement]
          · rcases rel with _ | m <;>
              simp [measureLatency, ProbeEnv.wallClock, measureLatencyWithPool, hr,
                failureMeasurement]
        · simp [measureLatency, ProbeEnv.wallClock, measureLatencyWithPool, failureMeasurement]
      · simp [measureLatency, ProbeEnv.wallClock, measureLatencyWithPool, failureMeasurement]
    · simp [measureLatency, ProbeEnv.wallClock, measureLatencyWithPool, failureMeasurement]

/-! ### More trace helper lemmas -/

theorem endConn_not_mem_runRTs (steps : List StepR) (i t : ℕ) :
    Action.endConn ∉ (runRTs steps i t).2 := by
  intro h
  rcases runRTs_actions_rt steps i t _ h with ⟨j, hj⟩
  simp at hj

theorem release_not_mem_runRTs (steps : List StepR) (i t : ℕ) :
    Action.release ∉ (runRTs steps i t).2 := by
  intro h
  rcases runRTs_actions_rt steps i t _ h with ⟨j, hj⟩
  simp at hj

theorem rtRun_error_not_all (rts : Fin 10 → StepR) (t : ℕ) (m : String)
    (hr : (runRTs (rtList rts) 0 t).1 = Except.error m) :
    ¬ ∀ i, (rts i).isOk = true := by
  intro hall
  rcases (runRTs_ok_iff (rtList rts) 0 t).mpr ((rtList_ok_iff rts).mpr hall) with ⟨t4, h4⟩
  rw [hr] at h4
  exact absurd h4 (by simp)

theorem rtRun_ok_all (rts : Fin 10 → StepR) (t t4 : ℕ)
    (hr : (runRTs (rtList rts) 0 t).1 = Except.ok t4) :
    ∀ i, (rts i).isOk = true :=
  (rtList_ok_iff rts).mp ((runRTs_ok_iff _ _ _).mp ⟨t4, hr⟩)

/-! ### C4 -/

/-- C4 counterexample: in the cycle cePingFail the connection is acquired
(connect succeeds) and the ping query then throws, yet the returned Failure
is produced without any client.end() call: the catch blocks of
measureLatencyWithClient and measureLatencyWithPool contain no close or
release, so no best-effort cleanup is attempted before returning. -/
theorem C4_counterexample :
    cePingFail.connect.isOk = true ∧
    (measureLatencyWithClient cePingFail).1.success = false ∧
    Action.endConn ∉ (measureLatencyWithClient cePingFail).2 := by
  refine ⟨rfl, rfl, ?_⟩
  simp [measureLatencyWithClient, cePingFail, failureMeasurement]

/-- C4 (amended): connection cleanup happens only on the all-queries-success
path: in Client mode client.end() is called exactly when connect, ping, the
bulk query and all ten round trips succeeded, and in Pool mode
client.release() is called exactly under the same condition; when any of
those steps fails, the cycle returns its Failure without attempting a
close or release. -/
theorem C4_cleanup_only_after_queries (ce : ClientEnv) (pe : PoolEnv) :
    (Action.endConn ∈ (measureLatencyWithClient ce).2 ↔
      (ce.connect.isOk = true ∧ ce.ping.isOk = true ∧ ce.bulk.isOk = true ∧
        ∀ i, (ce.rts i).isOk = true)) ∧
    (Action.release ∈ (measureLatencyWithPool pe).2 ↔
      (pe.acquire.isOk = true ∧ pe.ping.isOk = true ∧ pe.bulk.isOk = true ∧
        ∀ i, (pe.rts i).isOk = true)) := by
  constructor
  · rcases ce with ⟨w, cn, pg, bk, rows, rts, ec⟩
    rcases cn with d1 | m
    · rcases pg with d2 | m
      · rcases bk with d3 | m
        · rcases hr : (runRTs (rtList rts) 0 (d1 + d2 + d3)).1 with m | t4
          · simp [measureLatencyWithClient, hr, StepR.isOk, endConn_not_mem_runRTs]
            rcases not_forall.mp (rtRun_error_not_all rts (d1 + d2 + d3) m hr) with ⟨i, hi⟩
            exact ⟨i, by cases hj : rts i <;> simp [StepR.isOk, hj] at hi ⊢⟩
          · have hall := rtRun_ok_all rts (d1 + d2 + d3) t4 hr
            rcases ec with _ | m <;>
              simp [measureLatencyWithClient, hr, StepR.isOk] <;>
              exact fun i => by simpa [StepR.isOk] using hall i
        · simp [measureLatencyWithClient, StepR.isOk]
      · simp [measureLatencyWithClient, StepR.isOk]
    · simp [measureLatencyWithClient, StepR.isOk]
  · rcases pe with ⟨w, ac, pg, bk, rows, rts, rel, pc⟩
    rcases ac with d1 | m
    · rcases pg with d2 | m
      · rcases bk with d3 | m
        · rcases hr : (runRTs (rtList rts) 0 (d1 + d2 + d3)).1 with m | t4
          · simp [measureLatencyWithPool, hr, StepR.isOk, release_not_mem_runRTs]
            rcases not_forall.mp (rtRun_error_not_all rts (d1 + d2 + d3) m hr) with ⟨i, hi⟩
            exact ⟨i, by cases hj : rts i <;> simp [StepR.isOk, hj] at hi ⊢⟩
          · have hall := rtRun_ok_all rts (d1 + d2 + d3) t4 hr
            rcases rel with _ | m <;>
              simp [measureLatencyWithPool, hr, StepR.isOk] <;>
              exact fun i => by simpa [StepR.isOk] using hall i
        · simp [measureLatencyWithPool, StepR.isOk]
      · simp [measureLatencyWithPool, StepR.isOk]
    · simp [measureLatencyWithPool, StepR.isOk]

/-! ### C9 -/

/-- C9: when acquisition fails (connect in Client mode, checkout in Pool
mode), the Failure carries no ping, bulk or round-trip latency fields, the
only driver call of the cycle is the failed acquisition itself, and no
close or release is attempted. -/
theorem C9_acquire_failure_no_phases (ce : ClientEnv) (pe : PoolEnv) (mc mp : String)
    (hc : ce.connect = .err mc) (hp : pe.acquire = .err mp) :
    ((measureLatencyWithClient ce).1.pingLatencyMs = none ∧
     (measureLatencyWithClient ce).1.longQueryLatencyMs = none ∧
     (measureLatencyWithClient ce).1.multiRoundTripLatencyMs = none ∧
     (measureLatencyWithClient ce).1.avgRoundTripMs = none ∧
     (measureLatencyWithClient ce).2 = [Action.connect] ∧
     Action.endConn ∉ (measureLatencyWithClient ce).2) ∧
    ((measureLatencyWithPool pe).1.pingLatencyMs = none ∧
     (measureLatencyWithPool pe).1.longQueryLatencyMs = none ∧
     (measureLatencyWithPool pe).1.multiRoundTripLatencyMs = none ∧
     (measureLatencyWithPool pe).1.avgRoundTripMs = none ∧
     (measureLatencyWithPool pe).2 = [Action.acquire] ∧
     Action.release ∉ (measureLatencyWithPool pe).2) := by
  constructor
  · simp [measureLatencyWithClient, hc, failureMeasurement]
  · simp [measureLatencyWithPool, hp, failureMeasurement]

/-- C9 witness: the acquisition-failure property at the concrete cycles
ceConnFail and peAcqFail. -/
theorem C9_witness :
    (ceConnFail.connect = .err "connect refused" ∧ peAcqFail.acquire = .err "pool timeout") ∧
    ((measureLatencyWithClient ceConnFail).1.pingLatencyMs = none ∧
     (measureLatencyWithClient ceConnFail).1.longQueryLatencyMs = none ∧
     (measureLatencyWithClient ceConnFail).1.multiRoundTripLatencyMs = none ∧
     (measureLatencyWithClient ceConnFail).1.avgRoundTripMs = none ∧
     (measureLatencyWithClient ceConnFail).2 = [Action.connect] ∧
     Action.endConn ∉ (measureLatencyWithClient ceConnFail).2) ∧
    ((measureLatencyWithPool peAcqFail).1.pingLatencyMs = none ∧
     (measureLatencyWithPool peAcqFail).1.longQueryLatencyMs = none ∧
     (measureLatencyWithPool peAcqFail).1.multiRoundTripLatencyMs = none ∧
     (measureLatencyWithPool peAcqFail).1.avgRoundTripMs = none ∧
     (measureLatencyWithPool peAcqFail).2 = [Action.acquire] ∧
     Action.release ∉ (measureLatencyWithPool peAcqFail).2) :=
  ⟨⟨rfl, rfl⟩, C9_acquire_failure_no_phases ceConnFail peAcqFail _ _ rfl rfl⟩

/-! ### C5 -/

/-- C5: for every successful Sample, totalLatencyMs equals exactly the sum
of the phase latencies of the cycle: acquire (connect in Client mode, pool
checkout in Pool mode), ping, bulk query and the round-trip phase total;
the checkpoint differences telescope, so the identity is exact. -/
theorem C5_total_equals_phase_sum (env : ProbeEnv)
    (h : (measureLatency env).1.success = true) :
    ((measureLatency env).1.totalLatencyMs.isSome = true ∧
     (measureLatency env).1.pingLatencyMs.isSome = true ∧
     (measureLatency env).1.longQueryLatencyMs.isSome = true ∧
     (measureLatency env).1.multiRoundTripLatencyMs.isSome = true ∧
     ((measureLatency env).1.connectLatencyMs.isSome = true ∨
      (measureLatency env).1.poolAcquireMs.isSome = true)) ∧
    (measureLatency env).1.totalLatencyMs.getD 0 =
      (measureLatency env).1.connectLatencyMs.getD 0 +
      (measureLatency env).1.poolAcquireMs.getD 0 +
      (measureLatency env).1.pingLatencyMs.getD 0 +
      (measureLatency env).1.longQueryLatencyMs.getD 0 +
      (measureLatency env).1.multiRoundTripLatencyMs.getD 0 := by
  cases env with
  | client ce =>
    rcases ce with ⟨w, cn, pg, bk, rows, rts, ec⟩
    rcases cn with d1 | m
    · rcases pg with d2 | m
      · rcases bk with d3 | m
        · rcases hr : (runRTs (rtList rts) 0 (d1 + d2 + d3)).1 with m | t4
          · simp [measureLatency, measureLatencyWithClient, hr, failureMeasurement] at h
          · rcases ec with _ | m
            · refine ⟨by simp [measureLatency, measureLatencyWithClient, hr], ?_⟩
              simp [measureLatency, measureLatencyWithClient, hr, nsToMs]
              ring
            · simp [measureLatency, measureLatencyWithClient, hr, failureMeasurement] at h
        · simp [measureLatency, measureLatencyWithClient, failureMeasurement] at h
      · simp [measureLatency, measureLatencyWithClient, failureMeasurement] at h
    · simp [measureLatency, measureLatencyWithClient, failureMeasurement] at h
  | pool pe =>
    rcases pe with ⟨w, ac, pg, bk, rows, rts, rel, pc⟩
    rcases ac with d1 | m
    · rcases pg with d2 | m
      · rcases bk with d3 | m
        · rcases hr : (runRTs (rtList rts) 0 (d1 + d2 + d3)).1 with m | t4
          · simp [measureLatency, measureLatencyWithPool, hr, failureMeasurement] at h
          · rcases rel with _ | m
            · refine ⟨by simp [measureLatency, measureLatencyWithPool, hr], ?_⟩
              simp [measureLatency, measureLatencyWithPool, hr, nsToMs]
              ring
            · simp [measureLatency, measureLatencyWithPool, hr, failureMeasurement] at h
        · simp [measureLatency, measureLatencyWithPool, failureMeasurement] at h
      · simp [measureLatency, measureLatencyWithPool, failureMeasurement] at h
    · simp [measureLatency, measureLatencyWithPool, failureMeasurement] at h

/-- C5 witness: the phase-sum identity on the all-success client cycle
ceOK. -/
theorem C5_witness :
    (measureLatency (ProbeEnv.client ceOK)).1.success = true ∧
    (measureLatency (ProbeEnv.client ceOK)).1.totalLatencyMs.getD 0 =
      (measureLatency (ProbeEnv.client ceOK)).1.connectLatencyMs.getD 0 +
      (measureLatency (ProbeEnv.client ceOK)).1.poolAcquireMs.getD 0 +
      (measureLatency (ProbeEnv.client ceOK)).1.pingLatencyMs.getD 0 +
      (measureLatency (ProbeEnv.client ceOK)).1.longQueryLatencyMs.getD 0 +
      (measureLatency (ProbeEnv.client ceOK)).1.multiRoundTripLatencyMs.getD 0 :=
  ⟨rfl, (C5_total_equals_phase_sum (ProbeEnv.client ceOK) rfl).2⟩

/-! ### C6 -/

/-- C6 counterexample: two all-success cycles whose round-trip duration
sequences differ (3 ns then nine 1 ns, versus 1 ns, 3 ns, then eight 1 ns)
produce identical Measurements, because only the total duration of the loop
is recorded; no ordered sequence of the ten individual durations appears in
the Sample. -/
theorem C6_counterexample :
    ceRtsA.rts 0 ≠ ceRtsB.rts 0 ∧
    (measureLatencyWithClient ceRtsA).1.success = true ∧
    measureLatencyWithClient ceRtsA = measureLatencyWithClient ceRtsB := by
  refine ⟨?_, rfl, rfl⟩
  simp [ceRtsA, ceRtsB]

/-- C6 (amended): the round-trip phase issues exactly 10 sequential
parameterized queries but records only their total duration:
multiRoundTripLatencyMs is the sum of the ten individual durations, and
avgRoundTripMs is that total divided by 10, which equals the arithmetic
mean of the ten durations. -/
theorem C6_roundtrip_total_and_mean (env : ProbeEnv)
    (h : (measureLatency env).1.success = true) :
    (rtList env.rts).length = 10 ∧
    (measureLatency env).1.multiRoundTripLatencyMs =
      some ((stepsTotalNs (rtList env.rts) : ℚ) / 1000000) ∧
    (measureLatency env).1.avgRoundTripMs =
      some ((stepsTotalNs (rtList env.rts) : ℚ) / 1000000 / 10) := by
  refine ⟨by simp [rtList], ?_⟩
  cases env with
  | client ce =>
    rcases ce with ⟨w, cn, pg, bk, rows, rts, ec⟩
    rcases cn with d1 | m
    · rcases pg with d2 | m
      · rcases bk with d3 | m
        · rcases hr : (runRTs (rtList rts) 0 (d1 + d2 + d3)).1 with m | t4
          · simp [measureLatency, measureLatencyWithClient, hr, failureMeasurement] at h
          · rcases ec with _ | m
            · have hsum := runRTs_ok_sum (rtList rts) 0 (d1 + d2 + d3) t4 hr
              simp [measureLatency, measureLatencyWithClient, hr, nsToMs, ProbeEnv.rts, hsum]
            · simp [measureLatency, measureLatencyWithClient, hr, failureMeasurement] at h
        · simp [measureLatency, measureLatencyWithClient, failureMeasurement] at h
      · simp [measureLatency, measureLatencyWithClient, failureMeasurement] at h
    · simp [measureLatency, measureLatencyWithClient, failureMeasurement] at h
  | pool pe =>
    rcases pe with ⟨w, ac, pg, bk, rows, rts, rel, pc⟩
    rcases ac with d1 | m
    · rcases pg with d2 | m
      · rcases bk with d3 | m
        · rcases hr : (runRTs (rtList rts) 0 (d1 + d2 + d3)).1 with m | t4
          · simp [measureLatency, measureLatencyWithPool, hr, failureMeasurement] at h
          · rcases rel with _ | m
            · have hsum := runRTs_ok_sum (rtList rts) 0 (d1 + d2 + d3) t4 hr
              simp [measureLatency, measureLatencyWithPool, hr, nsToMs, ProbeEnv.rts, hsum]
            · simp [measureLatency, measureLatencyWithPool, hr, failureMeasurement] at h
        · simp [measureLatency, measureLatencyWithPool, failureMeasurement] at h
      · simp [measureLatency, measureLatencyWithPool, failureMeasurement] at h
    · simp [measureLatency, measureLatencyWithPool, failureMeasurement] at h

/-- C6 witness: the amended round-trip property on the all-success pool
cycle peOK. -/
theorem C6_witness :
    (measureLatency (ProbeEnv.pool peOK)).1.success = true ∧
    (measureLatency (ProbeEnv.pool peOK)).1.avgRoundTripMs =
      some ((stepsTotalNs (rtList (ProbeEnv.pool peOK).rts) : ℚ) / 1000000 / 10) :=
  ⟨rfl, (C6_roundtrip_total_and_mean (ProbeEnv.pool peOK) rfl).2.2⟩

/-! ### Helper lemmas about rounding -/

theorem round2_zero : round2 0 = 0 := by
  unfold round2
  rw [show (0:ℚ) * 100 + 1 / 2 = 1 / 2 by ring]
  rw [show ⌊(1 / 2 : ℚ)⌋ = 0 from Int.floor_eq_iff.mpr (by norm_num)]
  norm_num

theorem round2_hundred : round2 100 = 100 := by
  unfold round2
  rw [show (100:ℚ) * 100 + 1 / 2 = 10000 + 1 / 2 by ring]
  rw [show ⌊(10000 + 1 / 2 : ℚ)⌋ = 10000 from Int.floor_eq_iff.mpr (by norm_num)]
  norm_num

/-! ### C7 -/

/-- C7: the failure rate of a stats summary is the failure count over the
total count expressed as a percentage and rounded to two decimal places,
with 0 when the buffer is empty (no division error), and a snapshot of only
successful Samples has failure rate 0. -/
theorem C7_failure_rate (results : List Measurement) :
    ((calculateStats results).failureRate =
      if results.length = 0 then 0
      else round2 (((results.filter (fun r => !r.success)).length : ℚ) /
        (results.length : ℚ) * 100)) ∧
    ((∀ m ∈ results, m.success = true) → (calculateStats results).failureRate = 0) := by
  constructor
  · by_cases hs : (results.filter (fun r => r.success)).length = 0
    · rcases Nat.eq_zero_or_pos results.length with h0 | h0
      · simp [calculateStats, hs, h0, List.length_eq_zero.mp h0]
      · simp [calculateStats, hs, h0, Nat.pos_iff_ne_zero.mp h0]
    · have hne : results.length ≠ 0 := by
        intro h0
        rw [List.length_eq_zero.mp h0] at hs
        simp at hs
      simp [calculateStats, hs, hne]
  · intro hall
    have hfail : results.filter (fun r => !r.success) = [] :=
      List.filter_eq_nil_iff.mpr (fun m hm => by simp [hall m hm])
    by_cases hs : (results.filter (fun r => r.success)).length = 0 <;>
      simp [calculateStats, hs, hfail, round2_zero]

/-- C7 witness: a snapshot with the single successful measurement mOK has
failure rate 0. -/
theorem C7_witness :
    (∀ m ∈ [mOK], m.success = true) ∧ (calculateStats [mOK]).failureRate = 0 :=
  ⟨by simp [mOK], (C7_failure_rate [mOK]).2 (by simp [mOK])⟩

/-! ### C8 -/

/-- C8: a snapshot with no successful Sample yields a summary whose latency
section is null (computed by a total function, never raising), a nonempty
snapshot of only Failures has failure rate 100, and the /metrics response of
a freshly started process reports zero measurements, null latency and no
last measurement. -/
theorem C8_no_success_graceful (results : List Measurement)
    (hall : ∀ m ∈ results, m.success = false) :
    (calculateStats results).latency = none ∧
    (results ≠ [] → (calculateStats results).failureRate = 100) ∧
    ((metricsResponse []).stats.totalMeasurements = 0 ∧
     (metricsResponse []).stats.latency = none ∧
     (metricsResponse []).lastMeasurement = none) := by
  have hs : results.filter (fun r => r.success) = [] :=
    List.filter_eq_nil_iff.mpr (fun m hm => by simp [hall m hm])
  have hf : results.filter (fun r => !r.success) = results :=
    List.filter_eq_self.mpr (fun m hm => by simp [hall m hm])
  refine ⟨by simp [calculateStats, hs], ?_, rfl, rfl, rfl⟩
  intro hne
  have hlen : results.length ≠ 0 := fun h => hne (List.length_eq_zero.mp h)
  simp [calculateStats, hs, hf, hlen, Nat.pos_iff_ne_zero]
  exact round2_hundred

/-- C8 witness: the graceful-degradation property on the one-Failure
snapshot. -/
theorem C8_witness :
    (∀ m ∈ [mFail], m.success = false) ∧
    ((calculateStats [mFail]).latency = none ∧
     ([mFail] ≠ ([] : List Measurement) → (calculateStats [mFail]).failureRate = 100)) := by
  have h := C8_no_success_graceful [mFail] (by simp [mFail])
  exact ⟨by simp [mFail], h.1, h.2.1⟩

end VpcBenchmark
